import Mathlib

/-!
Shallow embedding of `src/script.js` (client-side logic of the shoe-shop
landing page): cart store (`productManager.addToCart`, `updateCartCount`,
`saveCart`), startup load of the persisted cart, the paginated product
loader (`loadProducts` and the load-more click handler), the contact-form
validator (`formManager.validateField`, `validateForm`), the theme store
(`themeManager.setTheme`, `toggleTheme`), and the mock catalog fetcher
(`fetchProducts` with `utils.generateId`).

Conventions of the embedding:
* product identifiers are opaque generated tokens; we represent them as `Nat`
  drawn from an external id supply (`Date.now` + `Math.random` in the source
  is an external entropy source; it is modelled as a stream `supply : Nat → Nat`
  consumed at an increasing cursor);
* prices are decimal currency amounts; we represent them in cents (`Nat`),
  so `149.99` becomes `14999`;
* DOM side effects (toasts, counters) are represented as explicit fields of
  the state records they mutate;
* `localStorage` values are modelled by `StoredValue`: either a well-formed
  JSON document (`Json`) or a string that `JSON.parse` rejects (`malformed`).
-/

namespace ShoeShop

/-- A catalog product record, as built in `productManager.fetchProducts`
(`src/script.js:306-369`): identifier, name, description, price (in cents),
image URL, badge label and category. -/
structure Product where
  id : Nat
  name : String
  description : String
  price : Nat
  image : String
  badge : String
  category : String
  deriving DecidableEq, Repr, Inhabited

/-- A cart line item: the spread `{ ...product, quantity: 1 }` of
`src/script.js:455-458` — all product fields plus a quantity. -/
structure CartItem extends Product where
  quantity : Nat
  deriving DecidableEq, Repr

/-- The line item created when a product is first added. -/
def CartItem.ofProduct (p : Product) (q : Nat) : CartItem :=
  { p with quantity := q }

/-- In-place increment of the quantity of the first line item whose `id`
matches, leaving every other item untouched: the mutation
`existingItem.quantity += 1` performed on the result of
`state.cart.find(item => item.id === product.id)` (`src/script.js:450-453`). -/
def incFirst (pid : Nat) : List CartItem → List CartItem
  | [] => []
  | item :: rest =>
    if item.id = pid then { item with quantity := item.quantity + 1 } :: rest
    else item :: incFirst pid rest

/-- The operation `productManager.addToCart` (`src/script.js:449-459`): look up an existing
line item by product id; if found increment its quantity by 1, otherwise push
a new line item with quantity 1 at the end of the cart. -/
def addToCart (cart : List CartItem) (product : Product) : List CartItem :=
  if cart.any (fun item => item.id = product.id) then incFirst product.id cart
  else cart ++ [CartItem.ofProduct product 1]

/-- A whole sequence of add-to-cart operations, applied first-to-last. -/
def addAll (cart : List CartItem) (ps : List Product) : List CartItem :=
  ps.foldl addToCart cart

/-- The total item count computed in `productManager.updateCartCount`
(`src/script.js:488`): `state.cart.reduce((sum, item) => sum + item.quantity, 0)`. -/
def updateCartCount (cart : List CartItem) : Nat :=
  cart.foldl (fun sum item => sum + item.quantity) 0

/-- The (productId, quantity) pairs of a cart, the observation compared by the
round-trip law. -/
def itemPairs (cart : List CartItem) : List (Nat × Nat) :=
  cart.map (fun item => (item.id, item.quantity))

end ShoeShop

namespace ShoeShop

/-- The character-list trim behind `jsTrim`. -/
def trimChars (cs : List Char) : List Char :=
  ((cs.dropWhile Char.isWhitespace).reverse.dropWhile Char.isWhitespace).reverse

/-- The JavaScript string method `value.trim()` (`src/script.js:589`):
removes leading and trailing whitespace. -/
def jsTrim (s : String) : String :=
  String.mk (trimChars s.data)

/-! ### Cart-store lemmas -/

theorem incFirst_of_match (pid : Nat) (cart : List CartItem)
    (h : cart.any (fun item => item.id = pid) = true) :
    ∃ pre item post, cart = pre ++ item :: post ∧
      (∀ x ∈ pre, x.id ≠ pid) ∧ item.id = pid ∧
      incFirst pid cart = pre ++ { item with quantity := item.quantity + 1 } :: post := by
  induction cart with
  | nil => simp at h
  | cons a t ih =>
    by_cases ha : a.id = pid
    · exact ⟨[], a, t, rfl, by simp, ha, by simp [incFirst, ha]⟩
    · have ht : t.any (fun item => item.id = pid) = true := by
        simpa [List.any_cons, ha] using h
      obtain ⟨pre, item, post, heq, hpre, hitem, hinc⟩ := ih ht
      refine ⟨a :: pre, item, post, by simp [heq], ?_, hitem, ?_⟩
      · intro x hx
        rcases List.mem_cons.mp hx with rfl | hx
        · exact ha
        · exact hpre x hx
      · simp [incFirst, ha, hinc]

theorem incFirst_map_id (pid : Nat) (cart : List CartItem) :
    (incFirst pid cart).map (fun i => i.id) = cart.map (fun i => i.id) := by
  induction cart with
  | nil => rfl
  | cons a t ih =>
    by_cases ha : a.id = pid <;> simp [incFirst, ha, ih]

theorem foldl_add_quantity (cart : List CartItem) (n : Nat) :
    cart.foldl (fun sum item => sum + item.quantity) n =
      n + (cart.map (fun i => i.quantity)).sum := by
  induction cart generalizing n with
  | nil => simp
  | cons a t ih => simp [ih, Nat.add_assoc]

theorem incFirst_sum (pid : Nat) (cart : List CartItem)
    (h : cart.any (fun item => item.id = pid) = true) :
    ((incFirst pid cart).map (fun i => i.quantity)).sum =
      (cart.map (fun i => i.quantity)).sum + 1 := by
  induction cart with
  | nil => simp at h
  | cons a t ih =>
    by_cases ha : a.id = pid
    · simp only [incFirst, ha, if_pos, List.map_cons, List.sum_cons]
      omega
    · have ht : t.any (fun item => item.id = pid) = true := by
        simpa [List.any_cons, ha] using h
      simp only [incFirst, ha, ite_false, List.map_cons, List.sum_cons, ih ht]
      omega

theorem updateCartCount_addToCart (cart : List CartItem) (p : Product) :
    updateCartCount (addToCart cart p) = updateCartCount cart + 1 := by
  unfold addToCart updateCartCount
  by_cases h : cart.any (fun item => item.id = p.id) = true
  · rw [if_pos h, foldl_add_quantity, foldl_add_quantity, incFirst_sum p.id cart h]
    omega
  · rw [if_neg (by simpa using h), foldl_add_quantity, foldl_add_quantity]
    simp [CartItem.ofProduct]

theorem addToCart_ids_nodup (cart : List CartItem) (p : Product)
    (h : (cart.map (fun i => i.id)).Nodup) :
    ((addToCart cart p).map (fun i => i.id)).Nodup := by
  unfold addToCart
  by_cases hmem : cart.any (fun item => item.id = p.id) = true
  · simpa [hmem, incFirst_map_id] using h
  · have hnot : ∀ x ∈ cart, ¬ x.id = p.id := by simpa using hmem
    rw [if_neg (by simpa using hmem)]
    simp only [List.map_append, List.map_cons, List.map_nil]
    rw [List.nodup_append]
    refine ⟨h, List.nodup_singleton _, ?_⟩
    intro a ha hb
    simp only [List.mem_singleton] at hb
    obtain ⟨x, hx, rfl⟩ := List.mem_map.mp ha
    exact hnot x hx (by simpa [CartItem.ofProduct] using hb)

theorem addAll_ids_nodup (cart : List CartItem) (ps : List Product)
    (h : (cart.map (fun i => i.id)).Nodup) :
    ((addAll cart ps).map (fun i => i.id)).Nodup := by
  induction ps generalizing cart with
  | nil => simpa [addAll] using h
  | cons p rest ih =>
    have : addAll cart (p :: rest) = addAll (addToCart cart p) rest := rfl
    rw [this]
    exact ih _ (addToCart_ids_nodup cart p h)

theorem updateCartCount_addAll (cart : List CartItem) (ps : List Product) :
    updateCartCount (addAll cart ps) = updateCartCount cart + ps.length := by
  induction ps generalizing cart with
  | nil => simp [addAll]
  | cons p rest ih =>
    have : addAll cart (p :: rest) = addAll (addToCart cart p) rest := rfl
    rw [this, ih, updateCartCount_addToCart, List.length_cons]
    omega

/-! ### Claim theorems: cart store -/

/-- C1: for every product `p` and every cart state, `addToCart` either
increments the quantity of the existing line item whose identifier equals
`p.id` by exactly 1 (every other item unchanged, the matched item being the
first such), or, when no line item has that identifier, appends a new line
item for `p` with quantity 1 at the end of the sequence; hence adding the same
product twice from an empty cart yields exactly one line item with quantity 2,
not two line items. -/
theorem C1_addToCart_increment_or_append (cart : List CartItem) (p : Product) :
    ((∃ pre item post,
        cart = pre ++ item :: post ∧
        (∀ x ∈ pre, x.id ≠ p.id) ∧ item.id = p.id ∧
        addToCart cart p = pre ++ { item with quantity := item.quantity + 1 } :: post)
      ∨ ((∀ x ∈ cart, x.id ≠ p.id) ∧
        addToCart cart p = cart ++ [CartItem.ofProduct p 1]))
    ∧ addToCart (addToCart [] p) p = [CartItem.ofProduct p 2] := by
  constructor
  · by_cases h : cart.any (fun item => item.id = p.id) = true
    · left
      obtain ⟨pre, item, post, heq, hpre, hitem, hinc⟩ := incFirst_of_match p.id cart h
      exact ⟨pre, item, post, heq, hpre, hitem, by rw [addToCart, if_pos h, hinc]⟩
    · right
      refine ⟨by simpa using h, ?_⟩
      rw [addToCart, if_neg h]
  · simp [addToCart, incFirst, CartItem.ofProduct]

/-- C2: the invariant "at most one line item per product identifier" holds in
every cart state reachable from the empty cart by a sequence of `addToCart`
operations: the list of product identifiers of the cart has no duplicate. -/
theorem C2_cart_ids_nodup (ps : List Product) :
    ((addAll [] ps).map (fun i => i.id)).Nodup :=
  addAll_ids_nodup [] ps (by simp)

/-- C3: `updateCartCount` computes exactly the sum of the quantities of all
line items; on the empty cart it is 0, and after any sequence of N `addToCart`
calls starting from the empty cart it is N. -/
theorem C3_updateCartCount_spec :
    (∀ cart, updateCartCount cart = (cart.map (fun i => i.quantity)).sum)
    ∧ updateCartCount [] = 0
    ∧ ∀ ps : List Product, updateCartCount (addAll [] ps) = ps.length := by
  refine ⟨fun cart => ?_, rfl, fun ps => ?_⟩
  · rw [updateCartCount, foldl_add_quantity]
    omega
  · rw [updateCartCount_addAll]
    simp [updateCartCount]

/-! ### Persistence: JSON documents, `saveCart`, and the startup load -/

/-- A parsed JSON document, the value space of `JSON.parse` /
`JSON.stringify` used by `saveCart` (`src/script.js:499`) and the startup
load (`src/script.js:4`). Numbers occurring in cart data are integers in this
model (prices are in cents). -/
inductive Json where
  | null
  | jbool (b : Bool)
  | jnum (n : Int)
  | jstr (s : String)
  | jarr (elems : List Json)
  | jobj (fields : List (String × Json))

/-- JavaScript truthiness of a parsed JSON value, as used by the `|| []`
fallback on `src/script.js:4`: `null`, `false`, `0` and the empty string are
falsy; every array and object is truthy. -/
def Json.truthy : Json → Bool
  | .null => false
  | .jbool b => b
  | .jnum n => n != 0
  | .jstr s => s != ""
  | .jarr _ => true
  | .jobj _ => true

/-- Serialization (`JSON.stringify`) of one cart line item: an object with the spread product
fields plus `quantity`. -/
def encodeItem (item : CartItem) : Json :=
  .jobj [("id", .jnum (item.id : Int)),
         ("name", .jstr item.name),
         ("description", .jstr item.description),
         ("price", .jnum (item.price : Int)),
         ("image", .jstr item.image),
         ("badge", .jstr item.badge),
         ("category", .jstr item.category),
         ("quantity", .jnum (item.quantity : Int))]

/-- Serialization `JSON.stringify(state.cart)` (`src/script.js:499`): the array of encoded
line items. -/
def encodeCart (cart : List CartItem) : Json :=
  .jarr (cart.map encodeItem)

/-- Reading a JSON value back as a nonnegative integer field. -/
def asNat : Json → Option Nat
  | .jnum (.ofNat m) => some m
  | _ => none

/-- Reading a JSON value back as a string field. -/
def asStr : Json → Option String
  | .jstr s => some s
  | _ => none

/-- Reading one parsed object back as a cart line item (the fields the code
spreads into the cart). -/
def decodeItem (j : Json) : Option CartItem :=
  match j with
  | .jobj fields => do
      let id ← (List.lookup "id" fields).bind asNat
      let name ← (List.lookup "name" fields).bind asStr
      let description ← (List.lookup "description" fields).bind asStr
      let price ← (List.lookup "price" fields).bind asNat
      let image ← (List.lookup "image" fields).bind asStr
      let badge ← (List.lookup "badge" fields).bind asStr
      let category ← (List.lookup "category" fields).bind asStr
      let quantity ← (List.lookup "quantity" fields).bind asNat
      some { id := id, name := name, description := description, price := price,
             image := image, badge := badge, category := category, quantity := quantity }
  | _ => none

/-- Reading a list of parsed elements back as cart line items. -/
def decodeItems : List Json → Option (List CartItem)
  | [] => some []
  | j :: rest =>
    match decodeItem j, decodeItems rest with
    | some item, some items => some (item :: items)
    | _, _ => none

/-- Reading a whole parsed document back as a cart. -/
def decodeCart (j : Json) : Option (List CartItem) :=
  match j with
  | .jarr elems => decodeItems elems
  | _ => none

/-- A raw persisted string value: either a string `JSON.parse` rejects with a
`SyntaxError` (`malformed`), or a well-formed serialization of some JSON
document. -/
inductive StoredValue where
  | malformed
  | wellFormed (doc : Json)

/-- The operation `productManager.saveCart` (`src/script.js:498-500`): overwrites the stored
`cart` value with `JSON.stringify(state.cart)` unconditionally. -/
def saveCart (cart : List CartItem) : StoredValue :=
  .wellFormed (encodeCart cart)

/-- The startup initialization of `state.cart` (`src/script.js:4`):
`JSON.parse(localStorage.getItem('cart')) || []`. When the key is absent,
`getItem` yields `null` and `JSON.parse` yields the falsy `null`, so the cart
falls back to `[]`; when the stored string is well-formed JSON, the parsed
value is used unless it is falsy; when the stored string is not well-formed
JSON, `JSON.parse` throws a `SyntaxError` which nothing catches. -/
def loadInitial : Option StoredValue → Except String Json
  | none => .ok (.jarr [])
  | some .malformed => .error "SyntaxError: Unexpected token in JSON"
  | some (.wellFormed doc) => .ok (if doc.truthy then doc else .jarr [])

theorem decodeItem_encodeItem (item : CartItem) :
    decodeItem (encodeItem item) = some item := rfl

theorem decodeItems_encode (cart : List CartItem) :
    decodeItems (cart.map encodeItem) = some cart := by
  induction cart with
  | nil => rfl
  | cons a t ih => simp [decodeItems, decodeItem_encodeItem, ih]

/-! ### Claim theorems: persistence -/

/-- C4: round-trip law — after any sequence of `addToCart` operations starting
from the empty cart, persisting the cart with `saveCart` and reloading it via
the startup load yields, without fault, exactly the serialized document, and
that document reads back as a cart with exactly the same (productId, quantity)
pairs as before the restart. -/
theorem C4_cart_roundtrip (ps : List Product) :
    loadInitial (some (saveCart (addAll [] ps))) = .ok (encodeCart (addAll [] ps))
    ∧ ∃ reloaded, decodeCart (encodeCart (addAll [] ps)) = some reloaded
        ∧ itemPairs reloaded = itemPairs (addAll [] ps) := by
  refine ⟨rfl, addAll [] ps, ?_, rfl⟩
  simp [decodeCart, encodeCart, decodeItems_encode]

/-- C5 (code-bug evidence): when the persisted cart value is not well-formed
JSON, the startup load `JSON.parse(localStorage.getItem('cart')) || []`
propagates the parse error instead of failing closed to the empty cart — the
claim (and the spec) requires an empty cart and no raised fault. -/
theorem C5_loadInitial_malformed_raises :
    loadInitial (some .malformed) = .error "SyntaxError: Unexpected token in JSON" := rfl

/-! ### Product loading and pagination -/

/-- The slice of the shared `state` object (`src/script.js:2-9`) that the
product loader touches, together with the toasts surfaced through
`themeManager.showToast` (message, type). -/
structure AppState where
  cart : List CartItem
  products : List Product
  isLoading : Bool
  currentPage : Nat
  toasts : List (String × String)
  deriving DecidableEq, Repr

/-- The outcome of `await this.fetchProducts()`: either a batch of products or
a thrown (simulated) fetch error. -/
inductive FetchOutcome where
  | success (batch : List Product)
  | failure
  deriving DecidableEq, Repr

/-- The operation `productManager.loadProducts` (`src/script.js:285-304`) with the fetch
outcome made explicit: an early return when already loading; on success the
batch is appended to the catalog; on a thrown fetch the catch block surfaces
the transient-error toast; the finally block clears `isLoading` either way. -/
def loadProducts (s : AppState) (outcome : FetchOutcome) : AppState :=
  if s.isLoading then s
  else
    match outcome with
    | .success batch => { s with products := s.products ++ batch, isLoading := false }
    | .failure =>
        { s with toasts := s.toasts ++ [("Failed to load products. Please try again.", "error")],
                 isLoading := false }

/-- The load-more click handler (`src/script.js:524-531`): increments
`state.currentPage` and then calls `loadProducts`. -/
def loadMoreClick (s : AppState) (outcome : FetchOutcome) : AppState :=
  loadProducts { s with currentPage := s.currentPage + 1 } outcome

/-- C6 (code-bug evidence): on a load-more request whose underlying fetch
throws, the transient-error toast is surfaced and neither catalog nor cart is
mutated, but the pagination page counter HAS been advanced (from 1 to 2): the
click handler increments `currentPage` before the fetch outcome is known,
while the claim (and the spec) requires the counter to be unchanged on
failure. -/
theorem C6_loadMore_failure_advances_page :
    let s0 : AppState :=
      { cart := [], products := [], isLoading := false, currentPage := 1, toasts := [] }
    let s1 := loadMoreClick s0 .failure
    s1.cart = s0.cart ∧ s1.products = s0.products ∧
    s1.toasts = [("Failed to load products. Please try again.", "error")] ∧
    s0.currentPage = 1 ∧ s1.currentPage = 2 :=
  ⟨rfl, rfl, rfl, rfl, rfl⟩

/-! ### Contact-form validation -/

/-- A character admissible in the email regex character class `[^\s@]`:
neither whitespace nor `@`. -/
def okChar (c : Char) : Bool :=
  !c.isWhitespace && c != '@'

/-- Split a character list at its first `@`, returning the parts before and
after it. -/
def splitFirstAt : List Char → Option (List Char × List Char)
  | [] => none
  | c :: rest =>
    if c = '@' then some ([], rest)
    else (splitFirstAt rest).map (fun p => (c :: p.1, p.2))

/-- The part of the email regex after the `@`, namely
`[^\s@]+\.[^\s@]+`: since `.` belongs to the class `[^\s@]`, a character list
matches exactly when all its characters are admissible and some `.` occurs
strictly inside (neither first nor last). -/
def domainOk (cs : List Char) : Bool :=
  cs.all okChar && (cs.drop 1).dropLast.contains '.'

/-- The email regex of `formManager.validateField` (`src/script.js:602`):
a nonempty run of non-whitespace, non-`@` characters, an `@`, and a domain
part with an interior dot. -/
def emailRegexTest (s : String) : Bool :=
  match splitFirstAt s.data with
  | some (lp, dom) => !lp.isEmpty && lp.all okChar && domainOk dom
  | none => false

/-- The helper `formManager.getFieldLabel` (`src/script.js:647-654`). -/
def getFieldLabel (fieldName : String) : String :=
  if fieldName = "name" then "Name"
  else if fieldName = "email" then "Email"
  else if fieldName = "message" then "Message"
  else fieldName

/-- The validator `formManager.validateField` (`src/script.js:588-623`), as a function of
the field's `required` attribute, name and raw value. The four rule blocks of
the source run in order on the trimmed value; each failing block sets the
validity flag to false and overwrites the error message, so the reported
message is the last failing rule's. Returns (isValid, errorMessage); the
empty message means no error is displayed. -/
def validateField (required : Bool) (fieldName : String) (rawValue : String) :
    Bool × String :=
  let value := jsTrim rawValue
  let r1 : Bool × String :=
    if required ∧ value = "" then (false, getFieldLabel fieldName ++ " is required.")
    else (true, "")
  let r2 :=
    if fieldName = "email" ∧ value ≠ "" ∧ emailRegexTest value = false then
      (false, "Please enter a valid email address.")
    else r1
  let r3 :=
    if fieldName = "name" ∧ value ≠ "" ∧ value.length < 2 then
      (false, "Name must be at least 2 characters long.")
    else r2
  let r4 :=
    if fieldName = "message" ∧ value ≠ "" ∧ value.length < 10 then
      (false, "Message must be at least 10 characters long.")
    else r3
  r4

/-- One form control as the validator sees it: its name attribute, its current
value, and whether it carries the `required` attribute. -/
structure FormField where
  name : String
  value : String
  required : Bool

/-- The validator `formManager.validateForm` (`src/script.js:575-586`): iterates over every
required input, validates each one (each call also rendering that field's own
error message through `showFieldError`), and ANDs all results. Returns the
overall flag together with the (fieldName, message) pairs rendered, in
order. -/
def validateForm (inputs : List FormField) : Bool × List (String × String) :=
  (inputs.filter (fun f => f.required)).foldl
    (fun acc f =>
      let r := validateField f.required f.name f.value
      (acc.1 && r.1, acc.2 ++ [(f.name, r.2)]))
    (true, [])

theorem validateForm_foldl (fields : List FormField) (b : Bool)
    (ms : List (String × String)) :
    fields.foldl
      (fun acc f =>
        let r := validateField f.required f.name f.value
        (acc.1 && r.1, acc.2 ++ [(f.name, r.2)]))
      (b, ms)
    = (b && fields.all (fun f => (validateField f.required f.name f.value).1),
       ms ++ fields.map (fun f => (f.name, (validateField f.required f.name f.value).2))) := by
  induction fields generalizing b ms with
  | nil => simp
  | cons a t ih => simp [ih, Bool.and_assoc]

/-! ### Claim theorems: form validation -/

/-- C7: `validateField` enforces exactly the stated per-field boundaries on
the trimmed value: the required rule fires iff the trimmed value is empty
(and for a required field not subject to the email/name/message rules,
validation fails iff the trimmed value is empty); the email field fails on
"not-an-email" and passes on "a@b.co"; the name field fails at every trimmed
length-1 value and passes at every trimmed length-2 value; the message field
fails at every trimmed length-9 value and passes at every trimmed length-10
value. -/
theorem C7_validateField_boundaries :
    (∀ fieldName rawValue, jsTrim rawValue = "" →
        (validateField true fieldName rawValue).1 = false)
    ∧ (∀ fieldName rawValue, fieldName ≠ "email" → fieldName ≠ "name" →
        fieldName ≠ "message" →
        ((validateField true fieldName rawValue).1 = false ↔ jsTrim rawValue = ""))
    ∧ (validateField true "email" "not-an-email").1 = false
    ∧ (validateField true "email" "a@b.co").1 = true
    ∧ (∀ v, (jsTrim v).length = 1 → (validateField true "name" v).1 = false)
    ∧ (∀ v, (jsTrim v).length = 2 → (validateField true "name" v).1 = true)
    ∧ (∀ v, (jsTrim v).length = 9 → (validateField true "message" v).1 = false)
    ∧ (∀ v, (jsTrim v).length = 10 → (validateField true "message" v).1 = true) := by
  refine ⟨?_, ?_, by decide, by decide, ?_, ?_, ?_, ?_⟩
  · intro fieldName rawValue h
    simp [validateField, h]
  · intro fieldName rawValue h1 h2 h3
    by_cases h : jsTrim rawValue = "" <;> simp [validateField, h, h1, h2, h3]
  · intro v h
    have hne : jsTrim v ≠ "" := by
      intro contra
      rw [contra] at h
      simp at h
    simp [validateField, hne, h]
  · intro v h
    have hne : jsTrim v ≠ "" := by
      intro contra
      rw [contra] at h
      simp at h
    simp [validateField, hne, h]
  · intro v h
    have hne : jsTrim v ≠ "" := by
      intro contra
      rw [contra] at h
      simp at h
    simp [validateField, hne, h]
  · intro v h
    have hne : jsTrim v ≠ "" := by
      intro contra
      rw [contra] at h
      simp at h
    simp [validateField, hne, h]

/-- Witness for C7: the hypothesized conjuncts evaluated at concrete inputs —
an all-whitespace required field fails, a field named "other" fails exactly
when empty, "J" fails the name rule, "Jo" passes, a 9-character message fails,
a 10-character message passes. -/
theorem C7_validateField_boundaries_witness :
    (validateField true "name" "   ").1 = false
    ∧ ((validateField true "other" "x").1 = false ↔ jsTrim "x" = "")
    ∧ (validateField true "name" "J").1 = false
    ∧ (validateField true "name" "Jo").1 = true
    ∧ (validateField true "message" "123456789").1 = false
    ∧ (validateField true "message" "1234567890").1 = true :=
  ⟨C7_validateField_boundaries.1 "name" "   " (by decide),
   C7_validateField_boundaries.2.1 "other" "x" (by decide) (by decide) (by decide),
   C7_validateField_boundaries.2.2.2.2.1 "J" (by decide),
   C7_validateField_boundaries.2.2.2.2.2.1 "Jo" (by decide),
   C7_validateField_boundaries.2.2.2.2.2.2.1 "123456789" (by decide),
   C7_validateField_boundaries.2.2.2.2.2.2.2 "1234567890" (by decide)⟩

/-- C8: `validateForm` is the logical AND of `validateField` over every
required field, and it evaluates `validateField` on every required field with
no short-circuit: the rendered messages are exactly each required field's own
message, in order, regardless of earlier failures. -/
theorem C8_validateForm_spec (inputs : List FormField) :
    (validateForm inputs).1 =
      (inputs.filter (fun f => f.required)).all
        (fun f => (validateField f.required f.name f.value).1)
    ∧ (validateForm inputs).2 =
      (inputs.filter (fun f => f.required)).map
        (fun f => (f.name, (validateField f.required f.name f.value).2)) := by
  unfold validateForm
  rw [validateForm_foldl]
  simp

/-! ### Theme store -/

/-- The theme slice of the state: the in-memory `state.theme`, the
`data-theme` document attribute, and the persisted `theme` value. -/
structure ThemeState where
  theme : String
  docAttr : String
  persisted : String
  deriving DecidableEq, Repr

/-- The operation `themeManager.setTheme` (`src/script.js:97-106`): sets `state.theme`, the
document-wide `data-theme` attribute and the persisted value, all to the given
theme. -/
def setTheme (s : ThemeState) (t : String) : ThemeState :=
  { s with theme := t, docAttr := t, persisted := t }

/-- The operation `themeManager.toggleTheme` (`src/script.js:108-117`):
`newTheme = state.theme === 'light' ? 'dark' : 'light'`, then `setTheme`. -/
def toggleTheme (s : ThemeState) : ThemeState :=
  setTheme s (if s.theme = "light" then "dark" else "light")

/-- C9: for every theme value t among light and dark, toggling twice from a
state whose theme is t returns the theme to t, and after every `setTheme` or
`toggleTheme` the persisted value and the applied document attribute both
equal the current theme value. -/
theorem C9_theme_toggle_involution (s : ThemeState) (t v : String)
    (ht : t = "light" ∨ t = "dark") (hs : s.theme = t) :
    (toggleTheme (toggleTheme s)).theme = t
    ∧ (setTheme s v).persisted = (setTheme s v).theme
    ∧ (setTheme s v).docAttr = (setTheme s v).theme
    ∧ (toggleTheme s).persisted = (toggleTheme s).theme
    ∧ (toggleTheme s).docAttr = (toggleTheme s).theme := by
  rcases ht with rfl | rfl <;> simp [toggleTheme, setTheme, hs]

/-- Witness for C9: toggling twice from the light theme returns to light, and
the persisted value tracks the applied one. -/
theorem C9_theme_toggle_involution_witness :
    (toggleTheme (toggleTheme ⟨"light", "light", "light"⟩)).theme = "light"
    ∧ (toggleTheme ⟨"light", "light", "light"⟩).persisted =
        (toggleTheme ⟨"light", "light", "light"⟩).theme :=
  ⟨(C9_theme_toggle_involution ⟨"light", "light", "light"⟩ "light" "dark"
      (Or.inl rfl) rfl).1,
   (C9_theme_toggle_involution ⟨"light", "light", "light"⟩ "light" "dark"
      (Or.inl rfl) rfl).2.2.2.1⟩

/-! ### Catalog fetcher and id generation -/

/-- The generator `utils.generateId` (`src/script.js:54-57`): draws the next token from the
external entropy source (`Date.now().toString(36)` plus a `Math.random`
suffix), modelled as an id-supply stream `supply` read at a cursor that
advances with every call. -/
def generateId (supply : Nat → Nat) (k : Nat) : Nat × Nat :=
  (supply k, k + 1)

/-- The fetcher `productManager.fetchProducts` (`src/script.js:306-369`): the hardcoded
batch of six products, each with a freshly generated id; returns the batch and
the advanced id-supply cursor. Prices are in cents. -/
def fetchProducts (supply : Nat → Nat) (k : Nat) : List Product × Nat :=
  let (id1, k1) := generateId supply k
  let (id2, k2) := generateId supply k1
  let (id3, k3) := generateId supply k2
  let (id4, k4) := generateId supply k3
  let (id5, k5) := generateId supply k4
  let (id6, k6) := generateId supply k5
  ([{ id := id1, name := "Nox Runner Pro",
      description := "Premium running shoes with advanced cushioning technology.",
      price := 14999,
      image := "https://images.unsplash.com/photo-1549298916-b41d501d3772?w=400&h=400&fit=crop&crop=center",
      badge := "New", category := "running" },
    { id := id2, name := "Nox Urban Walker",
      description := "Stylish casual shoes perfect for city exploration.",
      price := 12999,
      image := "https://images.unsplash.com/photo-1606107557195-0e29a4b5b4aa?w=400&h=400&fit=crop&crop=center",
      badge := "Popular", category := "casual" },
    { id := id3, name := "Nox Trail Master",
      description := "Rugged hiking boots for outdoor adventures.",
      price := 17999,
      image := "https://images.unsplash.com/photo-1544966503-7cc5ac882d5f?w=400&h=400&fit=crop&crop=center",
      badge := "Best Seller", category := "hiking" },
    { id := id4, name := "Nox Classic Oxford",
      description := "Elegant dress shoes for formal occasions.",
      price := 19999,
      image := "https://images.unsplash.com/photo-1582897085656-c636d006a246?w=400&h=400&fit=crop&crop=center",
      badge := "Premium", category := "dress" },
    { id := id5, name := "Nox Sport Max",
      description := "High-performance athletic shoes for all sports.",
      price := 15999,
      image := "https://images.unsplash.com/photo-1595950653106-6c9ebd614d3a?w=400&h=400&fit=crop&crop=center",
      badge := "Limited", category := "sports" },
    { id := id6, name := "Nox Comfort Plus",
      description := "All-day comfort shoes with memory foam insoles.",
      price := 11999,
      image := "https://images.unsplash.com/photo-1560769629-975ec94e6a86?w=400&h=400&fit=crop&crop=center",
      badge := "Comfort", category := "casual" }],
   k6)

theorem mem_fetchProducts_id (supply : Nat → Nat) (k : Nat) (p : Product)
    (h : p ∈ (fetchProducts supply k).1) : ∃ i, i < 6 ∧ p.id = supply (k + i) := by
  simp only [fetchProducts, generateId, List.mem_cons, List.not_mem_nil, or_false] at h
  rcases h with rfl | rfl | rfl | rfl | rfl | rfl
  · exact ⟨0, by omega, rfl⟩
  · exact ⟨1, by omega, rfl⟩
  · exact ⟨2, by omega, rfl⟩
  · exact ⟨3, by omega, rfl⟩
  · exact ⟨4, by omega, rfl⟩
  · exact ⟨5, by omega, rfl⟩

theorem fetchProducts_cursor (supply : Nat → Nat) (k : Nat) :
    (fetchProducts supply k).2 = k + 6 := rfl

theorem addToCart_two_distinct (p1 p2 : Product) (h : p1.id ≠ p2.id) :
    addToCart (addToCart [] p1) p2 =
      [CartItem.ofProduct p1 1, CartItem.ofProduct p2 1] := by
  simp [addToCart, CartItem.ofProduct, h]

/-- C10: two successive invocations of `fetchProducts` (the second starting at
the id-supply cursor left by the first) return batches with identical names
and prices, yet — the id supply never repeating — no product of the first
batch shares an identifier with any product of the second; consequently adding
a product from the first batch and then the same-named product from the second
yields two separate line items with quantity 1 each, not one incremented line
item. -/
theorem C10_fetch_fresh_ids (supply : Nat → Nat) (k : Nat)
    (hinj : Function.Injective supply) :
    ((fetchProducts supply k).1.map (fun p => p.name) =
        (fetchProducts supply ((fetchProducts supply k).2)).1.map (fun p => p.name))
    ∧ ((fetchProducts supply k).1.map (fun p => p.price) =
        (fetchProducts supply ((fetchProducts supply k).2)).1.map (fun p => p.price))
    ∧ ∀ p1 ∈ (fetchProducts supply k).1,
        ∀ p2 ∈ (fetchProducts supply ((fetchProducts supply k).2)).1,
          p1.id ≠ p2.id ∧
          addToCart (addToCart [] p1) p2 =
            [CartItem.ofProduct p1 1, CartItem.ofProduct p2 1] := by
  refine ⟨rfl, rfl, ?_⟩
  intro p1 h1 p2 h2
  obtain ⟨i, hi, hpi⟩ := mem_fetchProducts_id supply k p1 h1
  obtain ⟨j, hj, hpj⟩ := mem_fetchProducts_id supply ((fetchProducts supply k).2) p2 h2
  rw [fetchProducts_cursor] at hpj
  have hne : p1.id ≠ p2.id := by
    rw [hpi, hpj]
    intro heq
    have := hinj heq
    omega
  exact ⟨hne, addToCart_two_distinct p1 p2 hne⟩

/-- Witness for C10: with the identity id supply starting at cursor 0, the
first products of the two successive batches share a name but land in two
separate line items. -/
theorem C10_fetch_fresh_ids_witness :
    ∃ p1 ∈ (fetchProducts (fun n => n) 0).1,
      ∃ p2 ∈ (fetchProducts (fun n => n) ((fetchProducts (fun n => n) 0).2)).1,
        p1.name = p2.name ∧ p1.id ≠ p2.id ∧
        addToCart (addToCart [] p1) p2 =
          [CartItem.ofProduct p1 1, CartItem.ofProduct p2 1] := by
  refine ⟨((fetchProducts (fun n => n) 0).1.headI), by decide,
          ((fetchProducts (fun n => n) ((fetchProducts (fun n => n) 0).2)).1.headI), by decide,
          rfl, ?_⟩
  have h := (C10_fetch_fresh_ids (fun n => n) 0 (fun a b hab => hab)).2.2
    ((fetchProducts (fun n => n) 0).1.headI) (by decide)
    ((fetchProducts (fun n => n) ((fetchProducts (fun n => n) 0).2)).1.headI) (by decide)
  exact h

end ShoeShop
